import Mathlib

/-!
Verification of the hitomi gateway client (src/client/gateway/Shard.js,
src/client/gateway/GatewayManager.js, and the Collection cache class).

The JavaScript source is shallowly embedded: each method becomes a Lean
function from the explicit object state to the new state together with a
list of observable effects (frames sent, events emitted, timers scheduled).
JS dynamic values are modelled only as precisely as the code observes them:
nullable fields become `Option`, JS truthiness checks on numbers become
explicit zero tests, and the one place where a non-string value is used as
a `Map` key is modelled by a dedicated key-candidate type.
-/

set_option autoImplicit false

namespace Hitomi

/-! ## JS `Map` primitives (insertion-ordered association list)

`Collection extends Map`; a JS `Map` preserves insertion order, `set`
updates in place or appends, `delete` removes the entry whose key is
SameValueZero-equal to the argument. Entries here are an ordered list of
`(key, value)` pairs with string keys (the only keys `Collection.add` ever
inserts). -/

/-- A value used as the argument of `Map.delete` in the source. In
`Collection.add` the deleted "key" is `[...this.keys()].slice(-1)`, a JS
Array of strings, not a string. SameValueZero compares objects by
reference, so a freshly-built array is never equal to any stored string
key. -/
inductive JVal where
| str (s : String)
| arrOfStr (l : List String)
deriving DecidableEq, Repr

/-- SameValueZero comparison of a delete argument against a stored string
key: a string matches by content, an array (object) never matches a
string key. -/
def keyMatches (j : JVal) (k : String) : Bool :=
match j with
| .str s => s == k
| .arrOfStr _ => false

variable {V W : Type}

/-- Embeds `Map.prototype.get`. -/
def mget (k : String) : List (String × V) → Option V
| [] => none
| (k1, v) :: rest => if k1 = k then some v else mget k rest

/-- Embeds `Map.prototype.set`: update in place if the key exists, else append. -/
def mset (k : String) (v : V) : List (String × V) → List (String × V)
| [] => [(k, v)]
| (k1, v1) :: rest => if k1 = k then (k, v) :: rest else (k1, v1) :: mset k v rest

/-- Embeds `Map.prototype.delete` with an arbitrary JS value as argument. -/
def mdelete (j : JVal) (es : List (String × V)) : List (String × V) :=
es.filter (fun e => ¬ keyMatches j e.1)

/-- Embeds `[...this.keys()]`, in insertion order. -/
def mkeys (es : List (String × V)) : List String :=
es.map (·.1)

/-- Embeds `Array.prototype.slice(-1)`: the list holding just the last element
(empty on an empty array). -/
def sliceLast (l : List String) : List String :=
match l.getLast? with
| some x => [x]
| none => []

/-! ## Collection (the bounded cache) -/

/-- State of a `Collection`: the `Map` entries, the `limit`, and the
`cache` options object stored by the constructor (of which `add` could
consult the admission predicate `toAdd`; the source never does). -/
structure Collection (V : Type) where
entries : List (String × V)
limit : Nat
toAdd : Option (V → String → Bool) := none

/-- Return channel of `Collection.remove`: JS distinguishes `null`
(returned when the key is absent) from `undefined` (what `this.get`
yields after the entry was deleted). -/
inductive JRet (V : Type) where
| jnull
| jundefined
| jval (v : V)
deriving DecidableEq, Repr

/-- Embeds `Collection.add(id, item)` from the source:
if `this.limit === 0` return the item unstored; throw `Missing id` when
the id is null/undefined; if the key is present return the stored value;
if `this.limit && this.size > this.limit` call
`this.delete([...this.keys()].slice(-1))`; finally `this.set(id, item)`
and return the item. -/
def Collection.add (c : Collection V) (id : Option String) (item : V) :
    Except String (Collection V × V) :=
if c.limit = 0 then .ok (c, item)
else
  match id with
  | none => .error "Missing id"
  | some key =>
    match mget key c.entries with
    | some existing => .ok (c, existing)
    | none =>
      let c1 : Collection V :=
        if c.limit ≠ 0 ∧ c.limit < c.entries.length then
          { c with entries := mdelete (.arrOfStr (sliceLast (mkeys c.entries))) c.entries }
        else c
      .ok ({ c1 with entries := mset key item c1.entries }, item)

/-- Embeds `Collection.remove(item)` from the source: `null` when
`!this.has(item.id)`; otherwise `(this.delete(item.id), this.get(item.id))`
— the comma operator returns the *second* expression, a `get` performed
after the delete. -/
def Collection.remove (c : Collection V) (itemId : String) : Collection V × JRet V :=
if (mget itemId c.entries).isNone then (c, .jnull)
else
  let c1 : Collection V := { c with entries := mdelete (.str itemId) c.entries }
  match mget itemId c1.entries with
  | some v => (c1, .jval v)
  | none => (c1, .jundefined)

/-- Result of requesting an iterator from a JS value in a `for...of`
head: either the element sequence, or the value was not iterable. -/
inductive JIter (V : Type) where
| elems (l : List V)
| notIterable
deriving Repr

/-- The expression `this.values` (no call): the inherited
`Map.prototype.values` *function object*, which is not iterable. -/
def valuesProp (_c : Collection V) : JIter V :=
.notIterable

/-- The expression `this.values()`: an iterator over the stored values in
insertion order. -/
def valuesCall (c : Collection V) : JIter V :=
.elems (c.entries.map (·.2))

/-- Embeds `for (const item of it) if (func(item)) array.push(item)`: throws a
`TypeError` when the head value is not iterable. -/
def forOfFilter (p : V → Bool) : JIter V → Except String (List V)
| .elems l => .ok (l.filter p)
| .notIterable => .error "TypeError"

/-- Embeds `Collection.filter(func)` from the source: iterates
`for (const item of this.values)` — the method reference, not
`this.values()`. -/
def Collection.filter (c : Collection V) (p : V → Bool) : Except String (List V) :=
forOfFilter p (valuesProp c)

/-- Embeds `Collection.map(func)` from the source: iterates `this.values()`
(correctly called) and collects `func(item)`. -/
def Collection.mapVals (c : Collection V) (f : V → W) : List W :=
(c.entries.map (·.2)).map f

/-- Run a sequence of `add` calls (all with present string ids),
propagating the thrown-error channel. -/
def addChain (c : Collection V) : List (String × V) → Except String (Collection V)
| [] => .ok c
| (k, v) :: rest => do
  let r ← c.add (some k) v
  addChain r.1 rest

/-- The cache state used as the concrete failing input: fresh, `limit = 2`. -/
def cacheLimit2 : Collection Nat :=
{ entries := [], limit := 2 }

/-! ## Gateway opcodes and packets -/

/-- Modelled from the spec: the opcode constants live in
`src/utils/Constants.js`, which is not part of the provided sources. §6
lists the opcode set consumed/produced by the core (DISPATCH aka EVENT,
HEARTBEAT, IDENTIFY, RESUME, HEARTBEAT_ACK, HELLO, INVALID_SESSION); only
their mutual distinctness is observable in the gateway code, so they are
an inductive. -/
inductive Op where
| EVENT
| HEARTBEAT
| IDENTIFY
| RESUME
| HEARTBEAT_ACK
| HELLO
| INVALID_SESSION
deriving DecidableEq, Repr

/-- An inbound wire frame `{ op, d, s, t }`. The payload `d` is untyped in
JS; the model records exactly the projections the code reads:
`packet.d.session_id` (READY), `packet.d?.heartbeat_interval` (HELLO), and
the truthiness of `packet.d` itself (INVALID_SESSION). -/
structure Packet where
op : Op
t : Option String := none
s : Option Int := none
dSessionId : Option String := none
dHeartbeatInterval : Option Nat := none
dTruthy : Bool := false
deriving DecidableEq, Repr

/-- Outbound frames built by the Shard. -/
inductive OutMsg where
| heartbeat (seq : Int)
| identify (token : String) (intents : Nat) (shardId : Nat) (shardCount : Nat)
| resume (token : String) (sessionId : String) (seq : Int)
deriving DecidableEq, Repr

/-- Observable side effects of a Shard method call, in program order. -/
inductive Effect where
| send (m : OutMsg)
| emit (event : String) (detail : String)
| clientEmit (event : String)
| openSocket
| terminateSocket
| clearHeartbeatTimer
| startHeartbeatTimer (intervalMs : Nat)
| scheduleConnect (delayMs : Nat)
| forward (p : Packet)
deriving DecidableEq, Repr

/-- The slice of `client.options` (plus `client.token`) the gateway code
reads. -/
structure ClientOptions where
token : String
intents : Nat
shardCount : Nat
wsVersion : Nat
autoReconnect : Bool
blockedEvents : List String
deriving DecidableEq, Repr

/-! ## Shard -/

/-- Shard state, one field per mutable property the source touches. The
source writes to two distinct properties `lastHeartbeatAcked` (declared in
the constructor) and `lastHeartbeatAck` (created on first write by the
HEARTBEAT_ACK and open handlers); both are kept, the latter as an `Option`
since it starts out undefined. `heartbeatTimer` stands for the interval
timer handle (carrying its period); `connection` records whether the
websocket handle is non-null. -/
structure Shard where
id : Nat
sequence : Int
sessionId : Option String
lastHeartbeatAcked : Bool
lastHeartbeatAck : Option Bool
lastHeartbeatReceived : Option Nat
heartbeatTimer : Option Nat
reconnectInterval : Nat
reconnectAttempts : Nat
status : String
connection : Bool
deriving DecidableEq, Repr

/-- Embeds `new Shard(manager, id)`. -/
def Shard.init (id : Nat) : Shard :=
{ id := id
  sequence := -1
  sessionId := none
  lastHeartbeatAcked := true
  lastHeartbeatAck := none
  lastHeartbeatReceived := none
  heartbeatTimer := none
  reconnectInterval := 3000
  reconnectAttempts := 0
  status := "IDLE"
  connection := false }

/-- Embeds `sendWebsocketMessage(data)`: sends unless `this.status === "CLOSED"`. -/
def Shard.sendWebsocketMessage (s : Shard) (m : OutMsg) : List Effect :=
if s.status ≠ "CLOSED" then [.send m] else []

/-- Embeds `sendHeartbeat()`: set `lastHeartbeatAcked = false`, then send a
HEARTBEAT frame whose `d` is `this.sequence`. -/
def Shard.sendHeartbeat (s : Shard) : Shard × List Effect :=
let s1 : Shard := { s with lastHeartbeatAcked := false }
(s1, s1.sendWebsocketMessage (.heartbeat s1.sequence))

/-- Embeds `identify()`: send an IDENTIFY frame built from the client options. -/
def Shard.identify (opts : ClientOptions) (s : Shard) : Shard × List Effect :=
(s, s.sendWebsocketMessage (.identify opts.token opts.intents s.id opts.shardCount))

/-- Embeds `connect()`: returns immediately unless `this.status === "IDLE"`;
otherwise creates the websocket and sets `this.status = "CONNECTED"`. -/
def Shard.connect (s : Shard) : Shard × List Effect :=
if s.status ≠ "IDLE" then (s, [])
else ({ s with connection := true, status := "CONNECTED" }, [.openSocket])

/-- Embeds `websocketConnectionOpen()`: status becomes `"OPEN"`, emits
`connect`, and sets the (misspelled) `lastHeartbeatAck = true`. -/
def Shard.websocketConnectionOpen (s : Shard) : Shard × List Effect :=
({ s with status := "OPEN", lastHeartbeatAck := some true },
  [.emit "connect" (toString s.id)])

/-- The `if (this.heartbeatInterval) clearInterval(...)` prologue of
`disconnect`. -/
def clearHeartbeat (s : Shard) : Shard × List Effect :=
match s.heartbeatTimer with
| some _ => ({ s with heartbeatTimer := none }, [.clearHeartbeatTimer])
| none => (s, [])

/-- Embeds `if (this.sessionId) this.sessionId = null`. -/
def clearSession (s : Shard) : Shard :=
if s.sessionId.isSome then { s with sessionId := none } else s

/-- Embeds `if (this.sequence) this.sequence = -1` — a JS truthiness test, so a
zero sequence is left at zero. -/
def resetSequence (s : Shard) : Shard :=
if s.sequence ≠ 0 then { s with sequence := -1 } else s

/-- Embeds `disconnect(reconnect)` from the source, in order: return if no
connection; clear the heartbeat timer if set; terminate the socket; null
the connection; emit `disconnect "ASKED"`; clear `sessionId` if truthy;
reset `sequence` to `-1` only if truthy (so a `0` sequence is kept); then,
when `reconnect && options.autoReconnect`, either emit the terminal
`ATTEMPTS_ULTRAPASSED` notification (at `reconnectAttempts >= 5`) or
schedule `connect()` after `reconnectInterval` ms and bump the linear
backoff state. -/
def Shard.disconnect (opts : ClientOptions) (s : Shard) (reconnect : Bool) :
    Shard × List Effect :=
if s.connection = false then (s, [])
else
  let p1 : Shard × List Effect := clearHeartbeat s
  let e2 : List Effect := p1.2 ++ [.terminateSocket, .emit "disconnect" "ASKED"]
  let s4 : Shard := resetSequence (clearSession { p1.1 with connection := false })
  if reconnect ∧ opts.autoReconnect then
    if 5 ≤ s4.reconnectAttempts then
      (s4, e2 ++ [.emit "disconnect" "ATTEMPTS_ULTRAPASSED"])
    else
      ({ s4 with reconnectInterval := s4.reconnectInterval + 3000
                 reconnectAttempts := s4.reconnectAttempts + 1 },
        e2 ++ [.scheduleConnect s4.reconnectInterval])
  else (s4, e2)

/-- Embeds `websocketCloseConnection(code, reason)`: status `"CLOSED"`, emit
`connectionClosed`, then `this.disconnect(true)`. -/
def Shard.websocketCloseConnection (opts : ClientOptions) (s : Shard)
    (code : Nat) (reason : String) : Shard × List Effect :=
let s1 : Shard := { s with status := "CLOSED" }
let p := s1.disconnect opts true
(p.1, .emit "connectionClosed" (toString code ++ reason) :: p.2)

/-- Embeds `packetReceive(packet)` from the source. `if (packet.s)` is a JS
truthiness test, so a `0` sequence is not recorded. The `packet.t` switch
(READY) runs first, then the `packet.op` switch; `now` stands for
`Date.now()` at the HEARTBEAT_ACK branch. -/
def Shard.packetReceive (opts : ClientOptions) (s : Shard) (p : Packet)
    (now : Nat) : Shard × List Effect :=
let s0 : Shard :=
  match p.s with
  | some v => if v ≠ 0 then { s with sequence := v } else s
  | none => s
let p1 : Shard × List Effect :=
  if p.t = some "READY" then
    Shard.sendHeartbeat
      { s0 with sessionId := p.dSessionId, status := "READY", lastHeartbeatAcked := true }
  else (s0, [])
let s1 := p1.1
match p.op with
| .EVENT => (s1, p1.2 ++ [.forward p])
| .HEARTBEAT =>
  let p2 := s1.sendHeartbeat
  (p2.1, p1.2 ++ p2.2)
| .HEARTBEAT_ACK =>
  ({ s1 with lastHeartbeatAck := some true, lastHeartbeatReceived := some now }, p1.2)
| .HELLO =>
  let p2 : Shard × List Effect :=
    match p.dHeartbeatInterval with
    | some iv =>
      if iv ≠ 0 then
        ({ s1 with heartbeatTimer := some iv },
          (match s1.heartbeatTimer with
           | some _ => [Effect.clearHeartbeatTimer]
           | none => []) ++ [Effect.startHeartbeatTimer iv])
      else (s1, [])
    | none => (s1, [])
  (match p2.1.sessionId with
   | some sid =>
     (p2.1, p1.2 ++ p2.2 ++ p2.1.sendWebsocketMessage (.resume opts.token sid p2.1.sequence))
   | none =>
     let p3 := Shard.identify opts p2.1
     let p4 := p3.1.sendHeartbeat
     (p4.1, p1.2 ++ p2.2 ++ p3.2 ++ p4.2))
| .INVALID_SESSION =>
  let s2 : Shard := { s1 with sessionId := none, sequence := 0 }
  if p.dTruthy then
    let p3 := Shard.identify opts s2
    (p3.1, p1.2 ++ p3.2)
  else (s2, p1.2)
| .IDENTIFY => (s1, p1.2)
| .RESUME => (s1, p1.2)

/-! ## GatewayManager -/

/-- Record of one handler invocation
`event(this.client, packet, shard)`: which registry entry ran, on which
frame, for which shard (the client context is the same fixed object for
every call). -/
structure HandlerCall where
handlerId : Nat
packet : Packet
shardId : Nat
deriving DecidableEq, Repr

/-- Embeds `GatewayManager.handlePacket(packet, shard)`: `false` for a nullish
packet; otherwise, when `packet.t` is not in
`client.options.blockedEvents`, look up `PacketHandlers[packet.t]` in the
external registry and invoke it if found; `true` either way. -/
def handlePacket (opts : ClientOptions) (registry : String → Option Nat)
    (packet : Option Packet) (shardId : Nat) : Bool × List HandlerCall :=
match packet with
| none => (false, [])
| some p =>
  let blocked : Bool :=
    match p.t with
    | some t => opts.blockedEvents.contains t
    | none => false
  if blocked = false then
    match p.t.bind registry with
    | some h => (true, [⟨h, p, shardId⟩])
    | none => (true, [])
  else (true, [])

/-! ## Concrete fixtures -/

/-- Client options as in the repository's own bootstrap file
(auto-reconnect on, no blocked events). -/
def demoOpts : ClientOptions :=
{ token := "token"
  intents := 13827
  shardCount := 1
  wsVersion := 9
  autoReconnect := true
  blockedEvents := [] }

/-- The delays of the `setTimeout(() => this.connect(), ...)` calls in an
effect trace. -/
def scheduledDelays (effs : List Effect) : List Nat :=
effs.filterMap (fun e =>
  match e with
  | .scheduleConnect d => some d
  | _ => none)

/-- One failed reconnect observed at the Shard: the transport closes, the
close handler fires (`websocketCloseConnection`), which marks the status
CLOSED and calls `disconnect(true)`. The step assumes a transport socket
exists when the close event arrives (`connection := true`). -/
def failedReconnect (opts : ClientOptions) (s : Shard) : Shard × List Effect :=
Shard.websocketCloseConnection opts { s with connection := true } 1006 "abnormal"

/-- A collection holding one entry, used as concrete input. -/
def cacheOneEntry : Collection Nat :=
{ entries := [("a", 1)], limit := 100 }

/-- A collection whose `cache.toAdd` admission predicate vetoes every key. -/
def cacheWithVeto : Collection Nat :=
{ entries := [("k", 7)], limit := 100, toAdd := some (fun _ _ => false) }

/-- A shard whose socket just closed: status `"CLOSED"`, socket handle
still present (the close handler runs before `disconnect` nulls it). -/
def closedShard : Shard :=
{ Shard.init 0 with status := "CLOSED", connection := true }

/-- An open shard that has sent a heartbeat and awaits the ack. -/
def ackPendingShard : Shard :=
{ Shard.init 0 with
    status := "READY"
    connection := true
    lastHeartbeatAcked := false
    sequence := 42 }

/-- An open shard about to send a heartbeat tick. -/
def openShard : Shard :=
{ Shard.init 0 with status := "OPEN", connection := true, sequence := 42 }

/-- A HEARTBEAT_ACK frame as the server sends it. -/
def ackPacket : Packet :=
{ op := .HEARTBEAT_ACK }

/-- An INVALID_SESSION frame with a non-resumable (`d = false`) payload. -/
def invalidSessionPacket : Packet :=
{ op := .INVALID_SESSION }

/-- Client options with one blocked event type. -/
def blockOpts : ClientOptions :=
{ demoOpts with blockedEvents := ["TYPING_START"] }

/-- A registry with a single handler (id 1) for MESSAGE_CREATE. -/
def demoReg : String → Option Nat :=
fun t => if t = "MESSAGE_CREATE" then some 1 else none

/-- An EVENT frame whose type is blocked by `blockOpts`. -/
def pktBlocked : Packet :=
{ op := .EVENT, t := some "TYPING_START" }

/-- An EVENT frame with a registered handler. -/
def pktMsg : Packet :=
{ op := .EVENT, t := some "MESSAGE_CREATE" }

end Hitomi

namespace Hitomi

/-! ## Projection lemmas for the disconnect steps -/

variable {s : Shard}

@[simp]
theorem clearHeartbeat_fst_reconnectAttempts : (clearHeartbeat s).1.reconnectAttempts = s.reconnectAttempts := by
  unfold clearHeartbeat; split <;> rfl

@[simp]
theorem clearHeartbeat_fst_reconnectInterval : (clearHeartbeat s).1.reconnectInterval = s.reconnectInterval := by
  unfold clearHeartbeat; split <;> rfl

@[simp]
theorem clearHeartbeat_fst_sequence : (clearHeartbeat s).1.sequence = s.sequence := by
  unfold clearHeartbeat; split <;> rfl

@[simp]
theorem clearSession_reconnectAttempts : (clearSession s).reconnectAttempts = s.reconnectAttempts := by
  unfold clearSession; split <;> rfl

@[simp]
theorem clearSession_reconnectInterval : (clearSession s).reconnectInterval = s.reconnectInterval := by
  unfold clearSession; split <;> rfl

@[simp]
theorem clearSession_sequence : (clearSession s).sequence = s.sequence := by
  unfold clearSession; split <;> rfl

@[simp]
theorem resetSequence_reconnectAttempts : (resetSequence s).reconnectAttempts = s.reconnectAttempts := by
  unfold resetSequence; split <;> rfl

@[simp]
theorem resetSequence_reconnectInterval : (resetSequence s).reconnectInterval = s.reconnectInterval := by
  unfold resetSequence; split <;> rfl

@[simp]
theorem resetSequence_sequence : (resetSequence s).sequence = if s.sequence ≠ 0 then -1 else s.sequence := by
  unfold resetSequence; split <;> simp_all

@[simp]
theorem scheduledDelays_clearHeartbeat : scheduledDelays (clearHeartbeat s).2 = [] := by
  unfold clearHeartbeat; split <;> rfl

@[simp]
theorem scheduledDelays_append (a b : List Effect) :
    scheduledDelays (a ++ b) = scheduledDelays a ++ scheduledDelays b := by
  simp [scheduledDelays]

/-! ## Claims -/

/-- C1: the claim says a CLOSED shard whose `disconnect(reconnect=true)`
passes the backoff policy is brought back to CONNECTING by the scheduled
`connect()`, opening a new socket. The code refutes this: `disconnect`
does schedule `connect()` after 3000 ms, but `connect()` returns
immediately unless the status is `"IDLE"`, and nothing resets the status
after `"CLOSED"`, so the scheduled call changes nothing, opens no socket,
and the shard stays CLOSED; moreover no `"CONNECTING"` status exists —
a successful `connect()` sets `"CONNECTED"`. -/
theorem c1_scheduled_reconnect_is_dead :
    Effect.scheduleConnect 3000 ∈ (Shard.disconnect demoOpts closedShard true).2
    ∧ Shard.connect (Shard.disconnect demoOpts closedShard true).1
        = ((Shard.disconnect demoOpts closedShard true).1, [])
    ∧ (Shard.disconnect demoOpts closedShard true).1.status = "CLOSED"
    ∧ (Shard.connect (Shard.init 0)).1.status = "CONNECTED" := by
  refine ⟨?_, ?_, ?_, ?_⟩ <;> decide

/-- C2: the claim says `size() <= limit` after every `add` (finite
limit). The code refutes it: with `limit = 2`, the adds of `"a"`, `"b"`,
`"c"` leave `size = 3`, because eviction is checked *before* insertion
(`this.size > this.limit`) and, when it does run, deletes a key that is an
array, never matching a stored string key. -/
theorem c2_capacity_invariant_fails :
    (addChain cacheLimit2 [("a", 1), ("b", 2), ("c", 3)]).map
      (fun c => c.entries.length) = Except.ok 3
    ∧ cacheLimit2.limit = 2 := by
  exact ⟨rfl, rfl⟩

/-- C3: the claim says a heartbeat tick sets `lastHeartbeatAcked` to
false and sends the last-seen sequence (true in the code), and that a
HEARTBEAT_ACK frame sets `lastHeartbeatAcked` back to true (false in the
code: the handler writes the misspelled property `lastHeartbeatAck`,
leaving `lastHeartbeatAcked` untouched) while recording the receipt time
(true). -/
theorem c3_heartbeat_ack_sets_wrong_field :
    (openShard.sendHeartbeat).1.lastHeartbeatAcked = false
    ∧ (openShard.sendHeartbeat).2 = [Effect.send (OutMsg.heartbeat 42)]
    ∧ (Shard.packetReceive demoOpts ackPendingShard ackPacket 777).1.lastHeartbeatAcked = false
    ∧ (Shard.packetReceive demoOpts ackPendingShard ackPacket 777).1.lastHeartbeatAck = some true
    ∧ (Shard.packetReceive demoOpts ackPendingShard ackPacket 777).1.lastHeartbeatReceived
        = some 777 := by
  refine ⟨?_, ?_, ?_, ?_, ?_⟩ <;> decide

/-- C4: the claim says the oldest entry is evicted on overflow, so with
`limit = 2` the adds of `"a"`, `"b"`, `"c"` leave the store `{b, c}`. The
code refutes it: no eviction ever happens (the pre-insertion size check is
never true at size = limit, and the delete call passes an array, matching
no string key), so the store is `{a, b, c}`. -/
theorem c4_no_entry_is_evicted :
    (addChain cacheLimit2 [("a", 1), ("b", 2), ("c", 3)]).map (fun c => c.entries)
      = Except.ok [("a", 1), ("b", 2), ("c", 3)] := by
  exact rfl

/-- C5: the claim says an admission predicate returning false makes `add`
a no-op returning the rejected value. The code refutes it: `add` never
consults `cache.toAdd`, so with a predicate vetoing every key the new
entry is still inserted. -/
theorem c5_admission_veto_is_ignored :
    (cacheWithVeto.add (some "x") 9).map (fun r => (r.1.entries, r.2))
      = Except.ok ([("k", 7), ("x", 9)], 9)
    ∧ cacheWithVeto.toAdd.map (fun f => f 9 "x") = some false := by
  exact ⟨rfl, rfl⟩

/-- C6: the claim says `remove` on an absent key returns null (true in
the code) and on a present key deletes the entry and returns the removed
value. The code refutes the second part: it evaluates
`(this.delete(item.id), this.get(item.id))`, a `get` performed after the
delete, which yields `undefined`, not the removed value `1`. -/
theorem c6_remove_returns_undefined :
    cacheOneEntry.remove "b" = (cacheOneEntry, JRet.jnull)
    ∧ (cacheOneEntry.remove "a").1.entries = []
    ∧ (cacheOneEntry.remove "a").2 = JRet.jundefined
    ∧ (JRet.jundefined : JRet Nat) ≠ JRet.jval 1 := by
  refine ⟨rfl, rfl, rfl, by decide⟩

/-- C7: the claim says `filter` is total and never raises. The code
refutes it: `filter` iterates `for (const item of this.values)` — the
method reference, not `this.values()` — and a function object is not
iterable, so every call throws a TypeError before producing anything
(`map`, written right below it, calls `this.values()` and works). -/
theorem c7_filter_always_throws (c : Collection Nat) (p : Nat → Bool) :
    c.filter p = Except.error "TypeError" := by
  exact rfl

/-- C8: linear backoff. Three consecutive failed reconnects from a fresh
shard are scheduled at 3000, 6000, 9000 ms and leave
`reconnectAttempts = 3`; and for any shard whose socket exists, once
`reconnectAttempts >= 5` at disconnect time with auto-reconnect on, the
terminal `ATTEMPTS_ULTRAPASSED` disconnect notification is emitted and no
reconnect is scheduled. -/
theorem c8_linear_backoff (opts : ClientOptions) (s : Shard)
    (hauto : opts.autoReconnect = true) (hconn : s.connection = true)
    (hcap : 5 ≤ s.reconnectAttempts) :
    (scheduledDelays ((failedReconnect demoOpts (Shard.init 0)).2
        ++ (failedReconnect demoOpts (failedReconnect demoOpts (Shard.init 0)).1).2
        ++ (failedReconnect demoOpts
              (failedReconnect demoOpts (failedReconnect demoOpts (Shard.init 0)).1).1).2)
      = [3000, 6000, 9000]
    ∧ (failedReconnect demoOpts
        (failedReconnect demoOpts (failedReconnect demoOpts (Shard.init 0)).1).1).1.reconnectAttempts
      = 3)
    ∧ Effect.emit "disconnect" "ATTEMPTS_ULTRAPASSED" ∈ (Shard.disconnect opts s true).2
    ∧ scheduledDelays (Shard.disconnect opts s true).2 = [] := by
  refine ⟨by decide, ?_, ?_⟩
  · unfold Shard.disconnect
    simp [hconn, hauto, hcap]
  · unfold Shard.disconnect
    cases htimer : s.heartbeatTimer <;>
      simp [hconn, hauto, hcap, clearHeartbeat, htimer, scheduledDelays]

/-- Witness for C8 at a shard with five spent reconnect attempts. -/
theorem c8_witness :
    Effect.emit "disconnect" "ATTEMPTS_ULTRAPASSED"
      ∈ (Shard.disconnect demoOpts { Shard.init 0 with connection := true, reconnectAttempts := 5 } true).2 :=
  (c8_linear_backoff demoOpts
    { Shard.init 0 with connection := true, reconnectAttempts := 5 }
    (by decide) (by decide) (by decide)).2.1

/-- C9: dispatch. `handlePacket` returns false for an absent frame; a
frame whose event type is in the blocked set is never handed to any
registered handler (and still returns true); an unblocked frame with a
registered handler invokes exactly that handler with the frame and shard;
an unblocked frame with no handler (or no event type at all) invokes
nothing and returns true. -/
theorem c9_dispatch_filtering (opts : ClientOptions) (registry : String → Option Nat)
    (shardId : Nat) (p : Packet) :
    handlePacket opts registry none shardId = (false, [])
    ∧ (∀ t, p.t = some t → t ∈ opts.blockedEvents →
        handlePacket opts registry (some p) shardId = (true, []))
    ∧ (∀ t h, p.t = some t → t ∉ opts.blockedEvents → registry t = some h →
        handlePacket opts registry (some p) shardId = (true, [⟨h, p, shardId⟩]))
    ∧ (∀ t, p.t = some t → t ∉ opts.blockedEvents → registry t = none →
        handlePacket opts registry (some p) shardId = (true, []))
    ∧ (p.t = none → handlePacket opts registry (some p) shardId = (true, [])) := by
  refine ⟨rfl, ?_, ?_, ?_, ?_⟩
  · intro t ht hb
    simp [handlePacket, ht, hb]
  · intro t h ht hb hr
    simp [handlePacket, ht, hb, hr]
  · intro t ht hb hr
    simp [handlePacket, ht, hb, hr]
  · intro ht
    simp [handlePacket, ht]

/-- Witness for C9: with `TYPING_START` blocked and a handler registered
only for `MESSAGE_CREATE`, the three concrete dispatch outcomes. -/
theorem c9_witness :
    handlePacket blockOpts demoReg none 0 = (false, [])
    ∧ handlePacket blockOpts demoReg (some pktBlocked) 0 = (true, [])
    ∧ handlePacket blockOpts demoReg (some pktMsg) 0 = (true, [⟨1, pktMsg, 0⟩]) := by
  refine ⟨(c9_dispatch_filtering blockOpts demoReg 0 pktMsg).1,
    (c9_dispatch_filtering blockOpts demoReg 0 pktBlocked).2.1 "TYPING_START" rfl (by decide),
    (c9_dispatch_filtering blockOpts demoReg 0 pktMsg).2.2.1 "MESSAGE_CREATE" 1 rfl (by decide) rfl⟩

/-- C10: processing any INVALID_SESSION frame leaves the sequence cursor
at 0 — a different sentinel from the `-1` set at construction — and a
subsequent `disconnect` keeps it at 0, because `disconnect` guards the
reset with the truthiness test `if (this.sequence)`, which 0 fails. -/
theorem c10_invalid_session_zero_sentinel (opts : ClientOptions) (s s2 : Shard)
    (p : Packet) (now : Nat) (r : Bool)
    (hop : p.op = Op.INVALID_SESSION) (hs2 : s2.sequence = 0) :
    (Shard.packetReceive opts s p now).1.sequence = 0
    ∧ (Shard.init 0).sequence = -1
    ∧ (Shard.disconnect opts s2 r).1.sequence = 0
    ∧ (0 : Int) ≠ -1 := by
  refine ⟨?_, rfl, ?_, by decide⟩
  · unfold Shard.packetReceive
    rw [hop]
    by_cases hd : p.dTruthy = true <;> simp [hd, Shard.identify]
  · unfold Shard.disconnect
    cases hc : s2.connection <;> simp [hc, hs2, apply_ite]

/-- Witness for C10: a READY shard with a live session receives
INVALID_SESSION and is then disconnected. -/
theorem c10_witness :
    (Shard.packetReceive demoOpts ackPendingShard invalidSessionPacket 0).1.sequence = 0
    ∧ (Shard.disconnect demoOpts
        { ackPendingShard with sequence := 0 } false).1.sequence = 0 := by
  refine ⟨(c10_invalid_session_zero_sentinel demoOpts ackPendingShard
      { ackPendingShard with sequence := 0 } invalidSessionPacket 0 false rfl rfl).1,
    (c10_invalid_session_zero_sentinel demoOpts ackPendingShard
      { ackPendingShard with sequence := 0 } invalidSessionPacket 0 false rfl rfl).2.2.1⟩

end Hitomi
